import Mathlib

/-!
Shallow embedding of `src/message-store-nosql.ts` (class `MessageStoreNoSql`),
the DynamoDB-backed message store of this repository, together with a model of
the DynamoDB `Query` operation it drives.

Modelling conventions, in the order they appear in the source:

* A DynamoDB attribute value is either a string attribute (`{"S": ...}`) or a
  binary attribute (`{"B": ...}`); an item is an association list from
  attribute name to attribute value (first binding wins, as in a JS object).
* The dag-cbor block encoding used by `put` and `parseEncodedMessage` is an
  external serializer with `decode (encode m) = m`; we model its byte output
  by the message it encodes (`Bytes.wellFormed`) and add a constructor
  `Bytes.malformed` for byte strings that do not decode (including the empty
  `Buffer.from("")` that `get` substitutes for missing bytes).
* Rejected promises / thrown JS errors are modelled with `Except StoreError`.
  A `try { ... } catch ( error ) { /* swallowed */ }` block is modelled by
  mapping the error branch back to the value the function returns after the
  catch (in this source, always a normal return).
* `options?.signal?.throwIfAborted()` is modelled by a `signalAborted : Bool`
  argument: `true` means the signal is already in the aborted state at entry.
* Effects on the physical store are reported in explicit result fields
  (`written`, `fetched`, `deleted`, `physCalls`) so that "issues no physical
  I/O" is a statement about the model.
-/

/-- `DwnInterfaceName.Records` from the dwn-sdk enum. -/
def dwnInterfaceRecords : String := "Records"

/-- `DwnMethodName.Write` from the dwn-sdk enum. -/
def dwnMethodWrite : String := "Write"

/-- The `descriptor` part of a `GenericMessage`: the two fields the store
inspects (`descriptor.interface`, `descriptor.method`). -/
structure Descriptor where
  interface : String
  method : String
deriving DecidableEq, Repr, BEq

/-- A logical `GenericMessage`: the descriptor, the optional inline
`encodedData` payload (a string in the source), and an opaque `body` standing
for every other field of the message. -/
structure Message where
  descriptor : Descriptor
  encodedData : Option String
  body : String
deriving DecidableEq, Repr, BEq

/-- The canonical byte encoding of a message produced by
`block.encode({value, codec: cbor, hasher: sha256})`.  The encoder is a
bijection onto its image, so well-formed bytes are modelled by the message
they encode; `malformed` bytes are any byte string outside the image. -/
inductive Bytes where
  | wellFormed (m : Message)
  | malformed (tag : Nat)
deriving DecidableEq, Repr, BEq

/-- A marshalled DynamoDB attribute value: string (`S`) or binary (`B`). -/
inductive AttrVal where
  | S (s : String)
  | B (b : Bytes)
deriving DecidableEq, Repr, BEq

/-- A DynamoDB item: attribute name to attribute value. -/
abbrev Item := List (String × AttrVal)

/-- A DynamoDB key map, as found in `LastEvaluatedKey` / `ExclusiveStartKey`. -/
abbrev Lek := List (String × AttrVal)

/-- JS property lookup `item[key]` on an item object. -/
def lookupAttr (it : Item) (k : String) : Option AttrVal :=
  List.lookup k it

/-- Errors thrown by the store, per the error kinds of the spec. -/
inductive StoreError where
  | notOpen
  | decodeError
  | cancelled
  | typeError
  | backend (op : String)
deriving DecidableEq, Repr, BEq

/-- One filter clause: a map of attribute name to required string value. -/
abbrev Clause := List (String × String)

/-- The inner loop of the `filteredItems` predicate in `query`
(lines 403-424): `innerFilterMatch` stays true iff for every key of the
clause, `item.hasOwnProperty(key)` and `item[key].S === expectedValue`.
An absent attribute or a non-string attribute makes the clause fail. -/
def clauseMatches (item : Item) (clause : Clause) : Bool :=
  clause.all fun kv =>
    match lookupAttr item kv.1 with
    | some (AttrVal.S s) => s == kv.2
    | _ => false

/-- The `filteredItems` predicate of `query`: `filterMatchCount` counts the
clauses that fully match and the item is kept iff `filterMatchCount > 0`.
Note that with an empty clause list the count is 0 and the item is dropped. -/
def dnfFilter (filters : List Clause) (item : Item) : Bool :=
  decide (0 < filters.countP fun c => clauseMatches item c)

/-- `SortDirection` from the dwn-sdk. -/
inductive SortDirection where
  | Ascending
  | Descending
deriving DecidableEq, Repr, BEq

/-- `MessageSort` from the dwn-sdk: at most one of three time dimensions. -/
structure MessageSort where
  dateCreated : Option SortDirection
  datePublished : Option SortDirection
  messageTimestamp : Option SortDirection
deriving DecidableEq, Repr, BEq

/-- `extractSortProperties` (lines 656-668): first defined dimension wins in
source order `dateCreated`, `datePublished`, `messageTimestamp`; when none is
defined (or `messageSort` itself is `undefined`) the default is
`messageTimestamp` ascending. -/
def extractSortProperties (messageSort : Option MessageSort) :
    String × SortDirection :=
  match messageSort with
  | some s =>
    match s.dateCreated with
    | some d => ("dateCreated", d)
    | none =>
      match s.datePublished with
      | some d => ("datePublished", d)
      | none =>
        match s.messageTimestamp with
        | some d => ("messageTimestamp", d)
        | none => ("messageTimestamp", SortDirection.Ascending)
  | none => ("messageTimestamp", SortDirection.Ascending)

/-- `PaginationCursor` from the dwn-sdk.  The source stores
`JSON.stringify(lastEvaluatedKey)` in both fields and later applies
`JSON.parse` to `messageCid`; since stringify/parse is a bijection on these
key maps, the JSON string is modelled by the key map it denotes. -/
structure PaginationCursor where
  messageCid : Lek
  value : Lek
deriving DecidableEq, Repr, BEq

/-- `Pagination` from the dwn-sdk. -/
structure Pagination where
  cursor : Option PaginationCursor
  limit : Option Nat
deriving DecidableEq, Repr, BEq

/-- JS `pagination?.limit`, before any truthiness test. -/
def rawLimit (p : Option Pagination) : Option Nat :=
  match p with
  | some pp => pp.limit
  | none => none

/-- The truthiness test `if ( pagination?.limit )` in `cursorInputSort`:
a limit participates only when present and non-zero. -/
def paginationLimit (p : Option Pagination) : Option Nat :=
  match rawLimit p with
  | some l => if 0 < l then some l else none
  | none => none

/-- `if ( pagination?.cursor ) params["ExclusiveStartKey"] =
JSON.parse(pagination.cursor.messageCid)` in `cursorInputSort`. -/
def paginationCursorKey (p : Option Pagination) : Option Lek :=
  match p with
  | some pp =>
    match pp.cursor with
    | some c => some c.messageCid
    | none => none
  | none => none

/-- The `QueryCommandInput` built by `cursorInputSort`: the fields of the
physical query that vary per call (the table name and the key-condition
expression text are fixed). -/
structure QueryCommandInput where
  tenant : String
  indexName : Option String
  scanIndexForward : Bool
  limit : Option Nat
  exclusiveStartKey : Option Lek
deriving DecidableEq, Repr, BEq

/-- `cursorInputSort` (lines 673-714).  `direction` is true for ascending;
`ScanIndexForward` is set to it unconditionally, and the inner
`if ( direction )` re-assignment is a no-op kept out of the model.
`IndexName` is set whenever the sort attribute is a truthy (non-empty)
string, which it always is for the three properties returned by
`extractSortProperties`. -/
def cursorInputSort (tenant : String) (pagination : Option Pagination)
    (sortAttribute : String) (sortDirection : SortDirection) :
    QueryCommandInput :=
  let direction := sortDirection == SortDirection.Ascending
  { tenant := tenant
    indexName := if sortAttribute == "" then none else some sortAttribute
    scanIndexForward := direction
    limit := paginationLimit pagination
    exclusiveStartKey := paginationCursorKey pagination }

/-- The GSI key of an item as it appears in `LastEvaluatedKey` /
`ExclusiveStartKey`: the table keys `tenant`, `messageCid` plus the sort-key
attribute of the queried index. -/
def itemKey (sortProp : String) (it : Item) : Lek :=
  ["tenant", "messageCid", sortProp].filterMap fun k =>
    (lookupAttr it k).map fun v => (k, v)

/-- Resume semantics of `ExclusiveStartKey`: the scan starts strictly after
the item carrying the given key; with no key it starts at the beginning.  A
key that no longer denotes any item leaves nothing to scan (a cursor is only
valid for the combination it was issued under). -/
def startAfter (sortProp : String) (esk : Option Lek) (items : List Item) :
    List Item :=
  match esk with
  | none => items
  | some k =>
    match items.findIdx? (fun it => itemKey sortProp it == k) with
    | some i => items.drop (i + 1)
    | none => []

/-- The key condition `#tenant = :tenant` of the physical query. -/
def tenantMatches (tenant : String) (it : Item) : Bool :=
  lookupAttr it "tenant" == some (AttrVal.S tenant)

/-- A DynamoDB `Query` response: `Items`, `ScannedCount` (no filter
expression is set, so it equals the number of returned items) and the
optional `LastEvaluatedKey`. -/
structure DynamoResult where
  items : List Item
  scannedCount : Nat
  lastEvaluatedKey : Option Lek
deriving DecidableEq, Repr, BEq

/-- The portion of the selected index a physical query ranges over: the
tenant partition, oriented by `ScanIndexForward`, starting after the
`ExclusiveStartKey`.  `index` is the table viewed through the selected
secondary index in ascending order. -/
def queryRemaining (index : List Item) (params : QueryCommandInput) :
    List Item :=
  let partition := index.filter fun it => tenantMatches params.tenant it
  let ordered := if params.scanIndexForward then partition else partition.reverse
  startAfter (params.indexName.getD "") params.exclusiveStartKey ordered

/-- The windowing of a DynamoDB `Query`.  With `Limit` set, DynamoDB stops
as soon as it has evaluated `Limit` items and then reports the key of the
last evaluated item as `LastEvaluatedKey` - including when those were the
final items of the partition; `LastEvaluatedKey` is absent only when the
scan ran past the end of the partition before reaching the limit.  Without
`Limit`, the model returns the whole remaining partition (the 1 MB response
cap of the service is not modelled). -/
def dynamoQueryAux (rem : List Item) (sortProp : String) :
    Option Nat → DynamoResult
  | some l =>
    let taken := rem.take l
    { items := taken
      scannedCount := taken.length
      lastEvaluatedKey :=
        if 0 < l ∧ l ≤ rem.length then taken.getLast?.map (itemKey sortProp)
        else none }
  | none => { items := rem, scannedCount := rem.length, lastEvaluatedKey := none }

/-- One physical `QueryCommand` send. -/
def dynamoQuery (index : List Item) (params : QueryCommandInput) :
    DynamoResult :=
  dynamoQueryAux (queryRemaining index params) (params.indexName.getD "")
    params.limit

/-- JS property access `data.Items[data.ScannedCount - 1].S`: the property
named `S` of the whole item record - not of an attribute value - which is
an attribute value only if the item has an attribute literally called `S`. -/
def lastItemSProp (data : DynamoResult) : Option AttrVal :=
  match data.items.get? (data.scannedCount - 1) with
  | some it => lookupAttr it "S"
  | none => none

/-- JS strict inequality `a !== b` between `data.LastEvaluatedKey[key]` and
`data.Items[...].S`.  The left side, when present, is a freshly unmarshalled
`AttributeValue` object, and `!==` between two distinct objects is reference
inequality, hence true; it is false only when both operands are
`undefined`. -/
def jsStrictNeq (a b : Option AttrVal) : Bool :=
  match a, b with
  | none, none => false
  | _, _ => true

/-- The loop of lines 384-388: `matches` stays true iff no key of
`LastEvaluatedKey` differs (by `!==`) from `Items[ScannedCount - 1].S`. -/
def lekMatchesLastItem (lek : Lek) (data : DynamoResult) : Bool :=
  lek.all fun kv => !(jsStrictNeq (some kv.2) (lastItemSProp data))

/-- Lines 382-393 of `query`: when something was scanned and a
`LastEvaluatedKey` is present, the key is deleted from the response if
`matches` survived the loop; the surviving key is what
`processPaginationResults` later receives. -/
def lekDeleteCheck (data : DynamoResult) : Option Lek :=
  match data.lastEvaluatedKey with
  | none => none
  | some lek =>
    if 0 < data.scannedCount then
      if lekMatchesLastItem lek data then none else some lek
    else some lek

/-- `parseEncodedMessage` (lines 591-614): check the signal, decode the block
(a `DecodeError` propagates), then re-attach `encodedData` when the stored
column is neither `undefined` nor `null`. -/
def blockDecode (b : Bytes) : Except StoreError Message :=
  match b with
  | Bytes.wellFormed m => Except.ok m
  | Bytes.malformed _ => Except.error StoreError.decodeError

/-- `block.encode({value: messageToProcess, codec: cbor, hasher: sha256})`. -/
def blockEncode (m : Message) : Bytes :=
  Bytes.wellFormed m

def parseEncodedMessage (encodedMessageBytes : Bytes)
    (encodedData : Option String) (signalAborted : Bool) :
    Except StoreError Message :=
  if signalAborted then Except.error StoreError.cancelled
  else
    match blockDecode encodedMessageBytes with
    | Except.error e => Except.error e
    | Except.ok msg =>
      match encodedData with
      | some d => Except.ok { msg with encodedData := some d }
      | none => Except.ok msg

/-- The per-item body of `results.map(...)` in `processPaginationResults`:
`new Uint8Array(r.encodedMessageBytes.B)` is the stored bytes when the
attribute is binary, the undecodable empty array when the attribute exists
with another shape, and a thrown `TypeError` when the attribute is absent;
`r.encodedData?.S` is the stored string when present. -/
def parseItem (signalAborted : Bool) (it : Item) : Except StoreError Message :=
  let encodedData : Option String :=
    match lookupAttr it "encodedData" with
    | some (AttrVal.S s) => some s
    | _ => none
  match lookupAttr it "encodedMessageBytes" with
  | some (AttrVal.B b) => parseEncodedMessage b encodedData signalAborted
  | some (AttrVal.S _) =>
    parseEncodedMessage (Bytes.malformed 0) encodedData signalAborted
  | none => Except.error StoreError.typeError

/-- `processPaginationResults` (lines 626-651): the cursor is built from the
surviving `LastEvaluatedKey` alone - both `messageCid` and `value` are set to
`JSON.stringify(lastEvaluatedKey)` - and the results are never truncated
(`limit` and `sortProperty` are unused except in commented-out code).  A
decode failure of any item rejects the whole call. -/
def processPaginationResults (results : List Item) (sortProperty : String)
    (lastEvaluatedKey : Option Lek) (limit : Option Nat)
    (signalAborted : Bool) :
    Except StoreError (List Message × Option PaginationCursor) :=
  let _ := sortProperty
  let _ := limit
  let cursor : Option PaginationCursor :=
    lastEvaluatedKey.map fun k => { messageCid := k, value := k }
  (results.mapM (parseItem signalAborted)).map fun msgs => (msgs, cursor)

/-- Outcome of `query`: the returned (or thrown) value and the number of
physical `QueryCommand` sends issued. -/
structure QueryOutcome where
  result : Except StoreError (List Message × Option PaginationCursor)
  physCalls : Nat
deriving Repr

/-- `query` (lines 317-442).  After the open and abort checks it builds one
set of physical parameters via `cursorInputSort`, sends it, deletes `Limit`
and sends again (the second response `data2` is never used), applies the
`LastEvaluatedKey` delete check, filters the items of the first window with
the DNF predicate, and hands the survivors to `processPaginationResults`.
`data.Items` is always an array, so the `else` branch returning no messages
is unreachable for a successful send. -/
def query (clientOpen : Bool) (index : List Item) (tenant : String)
    (filters : List Clause) (messageSort : Option MessageSort)
    (pagination : Option Pagination) (signalAborted : Bool) : QueryOutcome :=
  if clientOpen then
    if signalAborted then
      { result := Except.error StoreError.cancelled, physCalls := 0 }
    else
      let sp := extractSortProperties messageSort
      let params := cursorInputSort tenant pagination sp.1 sp.2
      let data := dynamoQuery index params
      let _data2 := dynamoQuery index { params with limit := none }
      let lek := lekDeleteCheck data
      let filteredItems := data.items.filter fun it => dnfFilter filters it
      { result :=
          processPaginationResults filteredItems sp.1 lek
            (rawLimit pagination) signalAborted
        physCalls := 2 }
  else { result := Except.error StoreError.notOpen, physCalls := 0 }

/-- `getEncodedData` inside `put` (lines 200-212): for a Records Write
message whose `encodedData` is truthy (defined and non-empty), the field is
deleted from the caller-supplied object and returned separately; otherwise
the message is left untouched and no data is extracted. -/
def getEncodedData (m : Message) : Message × Option String :=
  if m.descriptor.interface == dwnInterfaceRecords
      && m.descriptor.method == dwnMethodWrite then
    match m.encodedData with
    | some d =>
      if d == "" then (m, none)
      else ({ m with encodedData := none }, some d)
    | none => (m, none)
  else (m, none)

/-- The encoding half of `put` (lines 200-222): strip the inline data, then
canonically encode the remaining message. -/
def encodeMessage (m : Message) : Bytes × Option String :=
  let r := getEncodedData m
  (blockEncode r.1, r.2)

/-- The content identifier `encodedMessageBlock.cid.toString()`: a stable
string derived from the canonical bytes. -/
def cidOf (b : Bytes) : String :=
  toString (repr b)

/-- The item assembled by `put` (lines 228-249): primary keys, canonical
bytes, the projected index attributes, and - only when inline data was
extracted - the `encodedData` column.  The external projector
`extractTagsAndSanitizeIndexes` (not under `src/`) is, per the spec, a pure
split of the flat index map into scalar and tag attributes, both of which
end up as attributes of the same item; the model passes the map through as
scalar attributes. -/
def putItem (tenant : String) (cid : String) (bytes : Bytes)
    (indexes : List (String × String)) (encodedData : Option String) : Item :=
  [("tenant", AttrVal.S tenant), ("messageCid", AttrVal.S cid),
    ("encodedMessageBytes", AttrVal.B bytes)]
    ++ indexes.map (fun kv => (kv.1, AttrVal.S kv.2))
    ++ (match encodedData with
        | some d => [("encodedData", AttrVal.S d)]
        | none => [])

/-- Outcome of `put`: the returned (or thrown) value, the state of the
caller-supplied message object after the call, and the item written to the
backend when the physical write succeeded. -/
structure PutOutcome where
  result : Except StoreError Unit
  callerMessage : Message
  written : Option Item
deriving Repr

/-- `put` (lines 181-261).  The open check, the abort check, the in-place
strip of `encodedData`, encoding, and the physical write whose failure is
caught and silently discarded (the `console` calls in the catch are
commented out), after which `put` returns normally. -/
def put (clientOpen : Bool) (tenant : String) (m : Message)
    (indexes : List (String × String)) (signalAborted : Bool)
    (backendFails : Bool) : PutOutcome :=
  if clientOpen then
    if signalAborted then
      { result := Except.error StoreError.cancelled, callerMessage := m,
        written := none }
    else
      let r := getEncodedData m
      let bytes := blockEncode r.1
      let item := putItem tenant (cidOf bytes) bytes indexes r.2
      if backendFails then
        { result := Except.ok (), callerMessage := r.1, written := none }
      else
        { result := Except.ok (), callerMessage := r.1, written := some item }
  else
    { result := Except.error StoreError.notOpen, callerMessage := m,
      written := none }

/-- The row `get` reads back: the `encodedMessageBytes` and `encodedData`
attributes of the item at `(tenant, messageCid)`. -/
structure GetRow where
  bytes : Option Bytes
  encodedData : Option String
deriving DecidableEq, Repr

/-- Outcome of `get`: the returned (or thrown) value and whether the
physical `GetItemCommand` was sent. -/
structure GetOutcome where
  result : Except StoreError (Option Message)
  fetched : Bool
deriving Repr

/-- `get` (lines 263-315).  Everything after the open check sits inside
`try { ... } catch ( error ) { }`: an aborted signal, a failed send, and a
`DecodeError` from `parseEncodedMessage` are all caught, and the function
then returns `undefined` - indistinguishable from a missing row.  Missing
bytes are replaced by `Buffer.from("")`, which does not decode. -/
def get (clientOpen : Bool) (row : Option GetRow) (signalAborted : Bool)
    (backendFails : Bool) : GetOutcome :=
  if clientOpen then
    if signalAborted then { result := Except.ok none, fetched := false }
    else if backendFails then { result := Except.ok none, fetched := true }
    else
      match row with
      | none => { result := Except.ok none, fetched := true }
      | some r =>
        match parseEncodedMessage (r.bytes.getD (Bytes.malformed 0))
            r.encodedData signalAborted with
        | Except.ok msg => { result := Except.ok (some msg), fetched := true }
        | Except.error _ => { result := Except.ok none, fetched := true }
  else { result := Except.error StoreError.notOpen, fetched := false }

/-- Outcome of `delete`: the returned (or thrown) value and whether the
physical `DeleteItemCommand` was sent. -/
structure DeleteOutcome where
  result : Except StoreError Unit
  deleted : Bool
deriving Repr

/-- `delete` (lines 523-545): open check, abort check, then an unguarded
physical delete whose failure propagates. -/
def delete (clientOpen : Bool) (tenant : String) (cid : String)
    (signalAborted : Bool) (backendFails : Bool) : DeleteOutcome :=
  let _ := tenant
  let _ := cid
  if clientOpen then
    if signalAborted then
      { result := Except.error StoreError.cancelled, deleted := false }
    else if backendFails then
      { result := Except.error (StoreError.backend "delete"), deleted := false }
    else { result := Except.ok (), deleted := true }
  else { result := Except.error StoreError.notOpen, deleted := false }

/-- `clear` (lines 547-589).  Note the signature: unlike the other
operations, `clear` takes no `options` argument and hence no cancellation
signal.  The scan-delete loop is modelled as one full-table window (the scan
size cap is not modelled); any failure inside the loop is caught, logged and
swallowed, leaving partial progress - here collapsed to returning the
current table. -/
def clear (clientOpen : Bool) (table : List Item) (backendFails : Bool) :
    Except StoreError (List Item) :=
  if clientOpen then
    if backendFails then Except.ok table
    else Except.ok []
  else Except.error StoreError.notOpen

/-- A stored logical message used by the concrete scenarios. -/
def msgTagged (tag : String) : Message :=
  { descriptor := { interface := "Records", method := "Write" },
    encodedData := none, body := tag }

/-- A stored item of tenant `T` with a timestamp and a `schema` attribute. -/
def sampleItem (cid t schema : String) (m : Message) : Item :=
  [("tenant", AttrVal.S "T"), ("messageCid", AttrVal.S cid),
    ("messageTimestamp", AttrVal.S t), ("schema", AttrVal.S schema),
    ("encodedMessageBytes", AttrVal.B (Bytes.wellFormed m))]

def itemA : Item := sampleItem "cidA" "t1" "x" (msgTagged "A")
def itemB : Item := sampleItem "cidB" "t2" "x" (msgTagged "B")
def itemC : Item := sampleItem "cidC" "t3" "want" (msgTagged "C")
def item1 : Item := sampleItem "cid1" "t1" "s1" (msgTagged "one")

def lekOfB : Lek :=
  [("tenant", AttrVal.S "T"), ("messageCid", AttrVal.S "cidB"),
    ("messageTimestamp", AttrVal.S "t2")]

def lekOf1 : Lek :=
  [("tenant", AttrVal.S "T"), ("messageCid", AttrVal.S "cid1"),
    ("messageTimestamp", AttrVal.S "t1")]

/-- The full remaining view of a query whose physical window is unlimited:
every item of the oriented, cursor-advanced tenant partition that passes the
DNF filter. -/
def unboundedView (index : List Item) (tenant : String)
    (filters : List Clause) (messageSort : Option MessageSort)
    (pagination : Option Pagination) : List Item :=
  let sp := extractSortProperties messageSort
  let params := cursorInputSort tenant pagination sp.1 sp.2
  (queryRemaining index params).filter fun it => dnfFilter filters it

/-- JS `messageSort?.dateCreated`. -/
def msDateCreated : Option MessageSort → Option SortDirection
  | some s => s.dateCreated
  | none => none

/-- JS `messageSort?.datePublished`. -/
def msDatePublished : Option MessageSort → Option SortDirection
  | some s => s.datePublished
  | none => none

/-- JS `messageSort?.messageTimestamp`. -/
def msMessageTimestamp : Option MessageSort → Option SortDirection
  | some s => s.messageTimestamp
  | none => none

/-- A message that is not a Records Write, used by the `put` scenario. -/
def msgPlain : Message :=
  { descriptor := { interface := "Records", method := "Read" },
    encodedData := none, body := "plain" }

/-- A Records Write whose `encodedData` is the empty string. -/
def msgEmptyData : Message :=
  { descriptor := { interface := "Records", method := "Write" },
    encodedData := some "", body := "e" }

/-- A Records Write carrying non-empty `encodedData`. -/
def msgWithData : Message :=
  { descriptor := { interface := "Records", method := "Write" },
    encodedData := some "x", body := "w" }

/-- A well-formed stored row, used by the cancellation scenario of `get`. -/
def rowGood : GetRow :=
  { bytes := some (Bytes.wellFormed (msgTagged "g")), encodedData := none }

/-- A stored row whose bytes do not decode. -/
def rowBad : GetRow :=
  { bytes := some (Bytes.malformed 7), encodedData := none }

/-! ## Lemmas about the filter evaluator -/

/-- A clause fully matches iff every named attribute is present on the item
as a string attribute equal to the required value. -/
theorem clauseMatches_iff (it : Item) (c : Clause) :
    clauseMatches it c = true ↔
      ∀ kv ∈ c, lookupAttr it kv.1 = some (AttrVal.S kv.2) := by
  unfold clauseMatches
  rw [List.all_eq_true]
  constructor
  · intro h kv hm
    have h2 := h kv hm
    cases hx : lookupAttr it kv.1 with
    | none => rw [hx] at h2; simp at h2
    | some v =>
      cases v with
      | S s =>
        rw [hx] at h2
        simp only [beq_iff_eq] at h2
        rw [h2]
      | B b => rw [hx] at h2; simp at h2
  · intro h kv hm
    rw [h kv hm]
    simp

/-- The item survives the filter iff some clause fully matches. -/
theorem dnfFilter_iff (filters : List Clause) (it : Item) :
    dnfFilter filters it = true ↔
      ∃ c ∈ filters, ∀ kv ∈ c, lookupAttr it kv.1 = some (AttrVal.S kv.2) := by
  unfold dnfFilter
  rw [decide_eq_true_iff, List.countP_pos_iff]
  constructor
  · rintro ⟨c, hc, hm⟩
    exact ⟨c, hc, (clauseMatches_iff it c).mp hm⟩
  · rintro ⟨c, hc, hm⟩
    exact ⟨c, hc, (clauseMatches_iff it c).mpr hm⟩

/-! ## Claim theorems -/

/-- Claim C1: `query` is supposed to keep issuing successive windowed
physical queries until `limit + 1` matching items are accumulated or the
index is exhausted, so that no page under-fills while matches remain.  The
code instead fetches a single window of `limit` physical items (its second,
unlimited query result is discarded) and filters afterward: with three
stored items of which only the third matches the filter and `limit = 2`,
the returned page is empty and carries a cursor, although one matching item
exists and the index is not exhausted, and exactly two physical queries were
issued regardless. -/
theorem query_single_window_misses_matches_C1 :
    (query true [itemA, itemB, itemC] "T" [[("schema", "want")]] none
        (some { cursor := none, limit := some 2 }) false).result
      = Except.ok ([], some { messageCid := lekOfB, value := lekOfB })
    ∧ ([itemA, itemB, itemC].filter fun it =>
        dnfFilter [[("schema", "want")]] it).length = 1
    ∧ (query true [itemA, itemB, itemC] "T" [[("schema", "want")]] none
        (some { cursor := none, limit := some 2 }) false).physCalls = 2 :=
  ⟨rfl, rfl, rfl⟩

/-- Claim C2 counterexample: the claim says an empty clause list means no
filtering, every item passes.  In the code `filterMatchCount` stays 0 when
there are no clauses and the predicate `filterMatchCount > 0` drops every
item: a query with an empty filter list over a one-item store returns no
messages. -/
theorem empty_filter_excludes_C2_counterexample :
    (query true [item1] "T" [] none none false).result = Except.ok ([], none)
    ∧ dnfFilter [] item1 = false :=
  ⟨rfl, rfl⟩

/-- Claim C2 (amended): an item is included iff at least one clause has all
of its attribute/value pairs equal (string equality) to the item's
attributes, a clause naming an absent (or non-string) attribute being
non-matching; consequently an empty clause list excludes every item rather
than passing all. -/
theorem query_filter_dnf_C2_amended :
    (∀ (filters : List Clause) (it : Item),
        dnfFilter filters it = true ↔
          ∃ c ∈ filters,
            ∀ kv ∈ c, lookupAttr it kv.1 = some (AttrVal.S kv.2))
    ∧ ∀ it : Item, dnfFilter [] it = false := by
  refine ⟨dnfFilter_iff, fun it => rfl⟩

/-- Claim C3: when exactly `limit` or fewer matching items were accumulated
and the index was exhausted, the claim requires all of them returned with no
output cursor.  With a single stored matching item and `limit = 1` the index
is exhausted, yet DynamoDB reports a `LastEvaluatedKey` (the scan stopped at
the limit), and the delete check of lines 382-393 compares
`LastEvaluatedKey[key]` (a marshalled object) against
`Items[ScannedCount - 1].S` (`undefined`), never removes the key, and the
page is returned together with a cursor. -/
theorem query_cursor_despite_exhausted_index_C3 :
    (query true [item1] "T" [[("schema", "s1")]] none
        (some { cursor := none, limit := some 1 }) false).result
      = Except.ok ([msgTagged "one"],
          some { messageCid := lekOf1, value := lekOf1 }) :=
  rfl

/-- Claim C4: with `pagination.limit` absent or zero the query is unbounded;
the physical window carries no `Limit`, hence returns the whole remaining
partition with no `LastEvaluatedKey`, so all matching items are returned and
no cursor is emitted. -/
theorem unbounded_query_C4 (index : List Item) (tenant : String)
    (filters : List Clause) (messageSort : Option MessageSort)
    (pagination : Option Pagination)
    (h : rawLimit pagination = none ∨ rawLimit pagination = some 0) :
    (query true index tenant filters messageSort pagination false).result
      = ((unboundedView index tenant filters messageSort pagination).mapM
          (parseItem false)).map (fun msgs => (msgs, none))
    ∧ (query true index tenant filters messageSort pagination false).physCalls
        = 2 := by
  have hl : paginationLimit pagination = none := by
    rcases pagination with _ | pp
    · rfl
    · rcases h with h | h <;>
      · simp only [rawLimit] at h
        simp [paginationLimit, rawLimit, h]
  constructor
  · simp [query, cursorInputSort, dynamoQuery, dynamoQueryAux, lekDeleteCheck,
      processPaginationResults, unboundedView, hl]
  · simp [query]

/-- Claim C4 witness: a concrete unbounded query (limit zero) over a
one-item store returns the matching item and no cursor. -/
theorem unbounded_query_C4_witness :
    (query true [item1] "T" [[("schema", "s1")]] none
        (some { cursor := none, limit := some 0 }) false).result
      = Except.ok ([msgTagged "one"], none) := by
  have h := unbounded_query_C4 [item1] "T" [[("schema", "s1")]] none
    (some { cursor := none, limit := some 0 }) (Or.inr rfl)
  rw [h.1]
  rfl

/-- Claim C5: a failed backend write in `put` is required to surface to the
caller.  The code wraps the `PutItemCommand` send in a `try` whose `catch`
is empty (even its logging is commented out): with a failing backend, `put`
returns normally and nothing was written. -/
theorem put_swallows_write_failure_C5 :
    (put true "T" msgPlain [] false true).result = Except.ok ()
    ∧ (put true "T" msgPlain [] false true).written = none :=
  ⟨rfl, rfl⟩

/-- Claim C6: a malformed stored record is required to fail `get` with a
`DecodeError`.  Decoding does fail, but the enclosing `try/catch` of `get`
swallows the error and the call returns `undefined`, indistinguishable from
not-found. -/
theorem get_swallows_decode_error_C6 :
    parseEncodedMessage (Bytes.malformed 7) none false
      = Except.error StoreError.decodeError
    ∧ (get true (some rowBad) false false).result = Except.ok none :=
  ⟨rfl, rfl⟩

/-- Claim C7: decoding the bytes produced by encoding a message, with the
inline data extracted during encoding re-supplied, yields the original
message: the stripped `encodedData` is re-attached after decoding. -/
theorem encode_decode_roundtrip_C7 (m : Message) :
    parseEncodedMessage (encodeMessage m).1 (encodeMessage m).2 false
      = Except.ok m := by
  rcases m with ⟨⟨i, mo⟩, ed, b⟩
  by_cases hc : (i == dwnInterfaceRecords && mo == dwnMethodWrite) = true
  · rcases ed with _ | d
    · simp [encodeMessage, getEncodedData, blockEncode, parseEncodedMessage,
        blockDecode, hc]
    · by_cases hd : (d == "") = true
      · simp [encodeMessage, getEncodedData, blockEncode, parseEncodedMessage,
          blockDecode, hc, hd]
      · rw [Bool.not_eq_true] at hd
        simp [encodeMessage, getEncodedData, blockEncode, parseEncodedMessage,
          blockDecode, hc, hd]
  · rw [Bool.not_eq_true] at hc
    simp [encodeMessage, getEncodedData, blockEncode, parseEncodedMessage,
      blockDecode, hc]

/-- Claim C8 counterexample: the claim says every operation fails
immediately with a `Cancelled` error when the signal is already aborted at
entry.  In `get` the abort check sits inside the swallowing `try/catch`, so
an already-aborted call returns `undefined` (a successful miss) instead of
failing - though it does skip the physical fetch. -/
theorem get_cancel_returns_undefined_C8_counterexample :
    (get true (some rowGood) true false).result = Except.ok none
    ∧ (get true (some rowGood) true false).fetched = false :=
  ⟨rfl, rfl⟩

/-- Claim C8 (amended): `put`, `get`, `query` and `delete` accept a
cancellation signal and check it at entry before issuing any physical I/O;
`put`, `query` and `delete` fail immediately with the cancellation error,
while `get` swallows it and returns `undefined`; `clear` (see its
definition) accepts no cancellation signal at all. -/
theorem ops_cancellation_C8_amended (tenant cid : String) (m : Message)
    (indexes : List (String × String)) (bf1 bf2 bf3 : Bool)
    (row : Option GetRow) (index : List Item) (filters : List Clause)
    (messageSort : Option MessageSort) (pagination : Option Pagination) :
    (put true tenant m indexes true bf1).result
        = Except.error StoreError.cancelled
    ∧ (put true tenant m indexes true bf1).written = none
    ∧ (put true tenant m indexes true bf1).callerMessage = m
    ∧ (get true row true bf2).result = Except.ok none
    ∧ (get true row true bf2).fetched = false
    ∧ (query true index tenant filters messageSort pagination true).result
        = Except.error StoreError.cancelled
    ∧ (query true index tenant filters messageSort pagination true).physCalls
        = 0
    ∧ (delete true tenant cid true bf3).result
        = Except.error StoreError.cancelled
    ∧ (delete true tenant cid true bf3).deleted = false :=
  ⟨rfl, rfl, rfl, rfl, rfl, rfl, rfl, rfl, rfl⟩

/-- Claim C9: the sort selector picks exactly one of the three time
dimensions with its requested direction, with source-order priority
`dateCreated`, `datePublished`, `messageTimestamp`, and defaults to
`messageTimestamp` ascending when no dimension is specified; it is a pure
function of the sort request. -/
theorem extract_sort_C9 (ms : Option MessageSort) :
    ((extractSortProperties ms).1 = "dateCreated"
      ∨ (extractSortProperties ms).1 = "datePublished"
      ∨ (extractSortProperties ms).1 = "messageTimestamp")
    ∧ (∀ d, msDateCreated ms = some d →
        extractSortProperties ms = ("dateCreated", d))
    ∧ (∀ d, msDateCreated ms = none → msDatePublished ms = some d →
        extractSortProperties ms = ("datePublished", d))
    ∧ (∀ d, msDateCreated ms = none → msDatePublished ms = none →
        msMessageTimestamp ms = some d →
        extractSortProperties ms = ("messageTimestamp", d))
    ∧ (msDateCreated ms = none → msDatePublished ms = none →
        msMessageTimestamp ms = none →
        extractSortProperties ms = ("messageTimestamp",
          SortDirection.Ascending)) := by
  rcases ms with _ | ⟨dc, dp, mt⟩
  · simp [extractSortProperties, msDateCreated, msDatePublished,
      msMessageTimestamp]
  · rcases dc with _ | d1 <;> rcases dp with _ | d2 <;> rcases mt with _ | d3 <;>
      simp [extractSortProperties, msDateCreated, msDatePublished,
        msMessageTimestamp]

/-- Claim C9 witness: with no sort request at all the selector yields the
default, last-modified time ascending. -/
theorem extract_sort_C9_witness :
    extractSortProperties none
      = ("messageTimestamp", SortDirection.Ascending) :=
  (extract_sort_C9 none).2.2.2.2 rfl rfl rfl

/-- Claim C10 counterexample: the claim says every Records Write carrying an
`encodedData` field has the field deleted in place by `put`.  The strip is
guarded by JS truthiness (`if (data)`), so a message carrying
`encodedData = ""` keeps the field: after `put` the caller object is
unchanged and still contains `encodedData`. -/
theorem put_keeps_empty_string_C10_counterexample :
    (put true "T" msgEmptyData [] false false).callerMessage = msgEmptyData
    ∧ (put true "T" msgEmptyData [] false false).callerMessage.encodedData
        = some "" :=
  ⟨rfl, rfl⟩

/-- Claim C10 (amended): for a Records Write carrying a non-empty
`encodedData` value, `put` deletes the field from the caller-supplied
message object in place before encoding, leaving every other field
unchanged; a message whose `encodedData` is the empty string is left
untouched. -/
theorem put_strips_encodedData_C10_amended (tenant : String) (m : Message)
    (indexes : List (String × String)) (backendFails : Bool) (d : String)
    (hi : m.descriptor.interface = dwnInterfaceRecords)
    (hm : m.descriptor.method = dwnMethodWrite)
    (hd : m.encodedData = some d) (hne : d ≠ "") :
    (put true tenant m indexes false backendFails).callerMessage
      = { m with encodedData := none } := by
  have hb : (m.descriptor.interface == dwnInterfaceRecords
      && m.descriptor.method == dwnMethodWrite) = true := by
    simp [hi, hm]
  have hdb : (d == "") = false := by
    simp [hne]
  cases backendFails <;>
    simp [put, getEncodedData, hb, hd, hdb]

/-- Claim C10 witness: a concrete Records Write with `encodedData = "x"`
loses exactly that field in place. -/
theorem put_strips_encodedData_C10_witness :
    (put true "T" msgWithData [] false false).callerMessage
      = { descriptor := { interface := "Records", method := "Write" },
          encodedData := none, body := "w" } :=
  put_strips_encodedData_C10_amended "T" msgWithData [] false "x" rfl rfl rfl
    (by decide)
